import Mathlib

/-!
Verification of the Morse Master trainer (src/p1x_morse_master.c).

Shallow embedding conventions:
- C strings of the application (`current_morse`, `user_input`, `decoded_text`,
  `top_words`) are modelled as `List Char` holding their contents up to the
  null terminator.  The companion position counters (`current_morse_position`,
  `input_position`), which the C code keeps equal to the corresponding
  `strlen` at all times (every write at the position also writes the
  terminator, and every reset zeroes both), are represented by the list
  lengths.
- RTC timestamps (`furi_hal_rtc_get_timestamp`, whole seconds) are `Nat`;
  the `uint32_t` subtraction `current_time - last_input_time` is modelled by
  `sub32`.
- The speaker volume (a C float stepped in exact quarters) is modelled as a
  rational number; the only operation the embedded code performs on it is the
  comparison `volume > 0.0f`.
-/

/-- DECODE_TIMEOUT_MS from the source (line 21). -/
def DECODE_TIMEOUT_MS : Nat := 2000

/-- MAX_MORSE_LENGTH from the source (line 22). -/
def MAX_MORSE_LENGTH : Nat := 6

/-- TOP_WORDS_MAX_LENGTH from the source (line 23). -/
def TOP_WORDS_MAX_LENGTH : Nat := 16

/-- `uint32_t` subtraction `a - b` (wrap-around modulo 2^32); faithful for
arguments below 2^32, which RTC timestamps are. -/
def sub32 (a b : Nat) : Nat := (a + 4294967296 - b) % 4294967296

/-- C `toupper` restricted to ASCII, as applied by `get_morse_for_char`. -/
def toupperC (c : Char) : Char :=
  if 'a' ≤ c ∧ c ≤ 'z' then Char.ofNat (c.toNat - 32) else c

/-- MORSE_TABLE from the source (lines 90-127): the character to
dot/dash-string mapping, in source order. -/
def MORSE_TABLE : List (Char × List Char) :=
  [ ('A', ['.', '-']),
    ('B', ['-', '.', '.', '.']),
    ('C', ['-', '.', '-', '.']),
    ('D', ['-', '.', '.']),
    ('E', ['.']),
    ('F', ['.', '.', '-', '.']),
    ('G', ['-', '-', '.']),
    ('H', ['.', '.', '.', '.']),
    ('I', ['.', '.']),
    ('J', ['.', '-', '-', '-']),
    ('K', ['-', '.', '-']),
    ('L', ['.', '-', '.', '.']),
    ('M', ['-', '-']),
    ('N', ['-', '.']),
    ('O', ['-', '-', '-']),
    ('P', ['.', '-', '-', '.']),
    ('Q', ['-', '-', '.', '-']),
    ('R', ['.', '-', '.']),
    ('S', ['.', '.', '.']),
    ('T', ['-']),
    ('U', ['.', '.', '-']),
    ('V', ['.', '.', '.', '-']),
    ('W', ['.', '-', '-']),
    ('X', ['-', '.', '.', '-']),
    ('Y', ['-', '.', '-', '-']),
    ('Z', ['-', '-', '.', '.']),
    ('0', ['-', '-', '-', '-', '-']),
    ('1', ['.', '-', '-', '-', '-']),
    ('2', ['.', '.', '-', '-', '-']),
    ('3', ['.', '.', '.', '-', '-']),
    ('4', ['.', '.', '.', '.', '-']),
    ('5', ['.', '.', '.', '.', '.']),
    ('6', ['-', '.', '.', '.', '.']),
    ('7', ['-', '-', '.', '.', '.']),
    ('8', ['-', '-', '-', '.', '.']),
    ('9', ['-', '-', '-', '-', '.']) ]

/-- The linear scan of `get_morse_for_char` (lines 145-149): first table entry
whose character equals the (already upper-cased) input. -/
def findMorse : List (Char × List Char) → Char → Option (List Char)
  | [], _ => none
  | (ch, code) :: rest, c => if ch = c then some code else findMorse rest c

/-- `get_morse_for_char` (lines 142-152): upper-cases the input, scans the
table, returns `none` (C: NULL) when the character is unsupported. -/
def get_morse_for_char (c : Char) : Option (List Char) :=
  findMorse MORSE_TABLE (toupperC c)

/-- The linear scan of `get_char_for_morse` (lines 156-160): first table entry
whose code string compares equal, else the unknown marker. -/
def lookupMorse : List (Char × List Char) → List Char → Char
  | [], _ => '?'
  | (ch, code) :: rest, m => if code = m then ch else lookupMorse rest m

/-- `get_char_for_morse` (lines 155-163): exact-match lookup over the table,
returning the sentinel unknown marker when nothing matches. -/
def get_char_for_morse (m : List Char) : Char := lookupMorse MORSE_TABLE m

/-- `update_top_words_marquee` (lines 836-853): append while the buffer has
room; at capacity, shift positions 0..14 left from positions 1..15 and write
the new character at position 15 (null at 16), i.e. keep the last 15 shifted
characters and append. -/
def update_top_words_marquee (top_words : List Char) (new_char : Char) :
    List Char :=
  if top_words.length < TOP_WORDS_MAX_LENGTH then
    top_words ++ [new_char]
  else
    (top_words.tail.take (TOP_WORDS_MAX_LENGTH - 1)) ++ [new_char]

/-- The practice-mode fields of the `MorseApp` struct (lines 80-87), the
state touched by `try_decode_morse` and the practice-mode input handler.
`user_input`/`input_position` (lines 75-76) are included because
`try_decode_morse` and the practice handler read and write them. -/
structure MorseApp where
  last_input_time : Nat
  decoded_text : List Char
  top_words : List Char
  current_morse : List Char
  auto_add_space : Bool
  last_decoded_char : Char
  user_input : List Char
deriving DecidableEq, Repr

/-- The practice-relevant initial state established by `memset(app, 0, ...)`
and the explicit defaults (lines 751, 780-788). -/
def initApp : MorseApp :=
  { last_input_time := 0
    decoded_text := []
    top_words := []
    current_morse := []
    auto_add_space := false
    last_decoded_char := Char.ofNat 0
    user_input := [] }

/-- `try_decode_morse` (lines 328-371), with `current_time` the value the
code reads from the RTC at entry.  The guard is the source condition
`last_input_time > 0 && (current_time - last_input_time) >= 2 &&
current_morse_position > 0`; on success the buffer is decoded, the result is
always stored in `last_decoded_char`, and only a recognized character is
appended to `decoded_text` (when it has room, also setting
`auto_add_space`), pushed into the marquee, and echoed into `user_input`
(when it has room); finally the morse buffer is reset. -/
def try_decode_morse (app : MorseApp) (current_time : Nat) : MorseApp :=
  if app.last_input_time > 0 ∧
     sub32 current_time app.last_input_time ≥ DECODE_TIMEOUT_MS / 1000 ∧
     app.current_morse.length > 0 then
    let decoded := get_char_for_morse app.current_morse
    let a1 := { app with last_decoded_char := decoded }
    let a2 :=
      if decoded ≠ '?' then
        let b1 :=
          if a1.decoded_text.length < MAX_MORSE_LENGTH - 1 then
            { a1 with
                decoded_text := a1.decoded_text ++ [decoded]
                auto_add_space := true }
          else a1
        let b2 :=
          { b1 with top_words := update_top_words_marquee b1.top_words decoded }
        if b2.user_input.length < MAX_MORSE_LENGTH - 1 then
          { b2 with user_input := b2.user_input ++ [decoded] }
        else b2
      else a1
    { a2 with current_morse := [] }
  else app

/-- Flipper input event types as they reach the callback. -/
inductive InputKind
  | Press
  | Release
  | Short
  | Long
  | Rep
deriving DecidableEq, Repr

/-- The practice-mode OK/Left branch of `morse_app_input_callback`
(lines 637-693), with `now` the RTC timestamp read by the handler: on any
event type it first consumes a pending auto-space into `decoded_text`
(lines 639-646), stamps `last_input_time` (lines 522-525 and 649), and, if
`input_position` has reached MAX_MORSE_LENGTH-1, clears `user_input`
(lines 652-661); then a Short event appends a dot and a Long event appends a
dash to `user_input` (if it has room) and to `current_morse` (if it has
room, lines 663-692). -/
def practice_key_ok_left (app : MorseApp) (kind : InputKind) (now : Nat) :
    MorseApp :=
  let a1 :=
    if app.auto_add_space then
      let a :=
        if app.decoded_text.length < MAX_MORSE_LENGTH - 1 then
          { app with decoded_text := app.decoded_text ++ [' '] }
        else app
      { a with auto_add_space := false }
    else app
  let a2 := { a1 with last_input_time := now }
  let a3 :=
    if a2.user_input.length ≥ MAX_MORSE_LENGTH - 1 then
      { a2 with user_input := [] }
    else a2
  match kind with
  | InputKind.Short =>
      if a3.user_input.length < MAX_MORSE_LENGTH - 1 then
        let a4 := { a3 with user_input := a3.user_input ++ ['.'] }
        if a4.current_morse.length < MAX_MORSE_LENGTH - 1 then
          { a4 with current_morse := a4.current_morse ++ ['.'] }
        else a4
      else a3
  | InputKind.Long =>
      if a3.user_input.length < MAX_MORSE_LENGTH - 1 then
        let a4 := { a3 with user_input := a3.user_input ++ ['-'] }
        if a4.current_morse.length < MAX_MORSE_LENGTH - 1 then
          { a4 with current_morse := a4.current_morse ++ ['-'] }
        else a4
      else a3
  | _ => a3

/-- The practice-mode Right-short branch of `morse_app_input_callback`
(lines 694-704): clears `user_input`, `decoded_text`, `current_morse`,
the positions, the auto-space flag and `last_input_time`.  (It does not
touch `top_words` or `last_decoded_char`.) -/
def practice_clear (app : MorseApp) : MorseApp :=
  { app with
      user_input := []
      decoded_text := []
      current_morse := []
      auto_add_space := false
      last_input_time := 0 }

/-- Conversion from a wall-clock instant in milliseconds to the whole-second
RTC timestamp the code observes at that instant. -/
def msToSec (t : Nat) : Nat := t / 1000

/-- Observable effects of one dot/dash pulse in the sound worker. -/
structure PulseEffects where
  tone_started : Bool
  visual_pulse : Bool
deriving DecidableEq, Repr

/-- The `SoundCommandDot` case of `sound_worker_thread` (lines 175-192):
inside a successful speaker acquisition the tone starts only when
`volume > 0.0f` while the red notification pulse is emitted unconditionally;
when acquisition fails the whole block is skipped. -/
def dot_pulse (acquired : Bool) (volume : ℚ) : PulseEffects :=
  if acquired then
    { tone_started := decide (0 < volume), visual_pulse := true }
  else
    { tone_started := false, visual_pulse := false }

/-- The `SoundCommandDash` case of `sound_worker_thread` (lines 194-211):
same gating as the dot case (blue pulse, dash duration). -/
def dash_pulse (acquired : Bool) (volume : ℚ) : PulseEffects :=
  if acquired then
    { tone_started := decide (0 < volume), visual_pulse := true }
  else
    { tone_started := false, visual_pulse := false }

/-- The supported alphabet of the spec: letters in either case and digits. -/
def supportedChars : List Char :=
  [ 'A', 'B', 'C', 'D', 'E', 'F', 'G', 'H', 'I', 'J', 'K', 'L', 'M',
    'N', 'O', 'P', 'Q', 'R', 'S', 'T', 'U', 'V', 'W', 'X', 'Y', 'Z',
    'a', 'b', 'c', 'd', 'e', 'f', 'g', 'h', 'i', 'j', 'k', 'l', 'm',
    'n', 'o', 'p', 'q', 'r', 's', 't', 'u', 'v', 'w', 'x', 'y', 'z',
    '0', '1', '2', '3', '4', '5', '6', '7', '8', '9' ]

/-! ## Helper lemmas -/

/-- When the pause guard of `try_decode_morse` fails, the state is returned
untouched. -/
lemma try_decode_skip (s : MorseApp) (now : Nat)
    (h : ¬(s.last_input_time > 0 ∧
           sub32 now s.last_input_time ≥ DECODE_TIMEOUT_MS / 1000 ∧
           s.current_morse.length > 0)) :
    try_decode_morse s now = s := by
  unfold try_decode_morse
  rw [if_neg h]

/-- Field-level description of a timeout-triggered resolution. -/
lemma try_decode_resolve (s : MorseApp) (now : Nat)
    (h1 : 0 < s.last_input_time)
    (h2 : DECODE_TIMEOUT_MS / 1000 ≤ sub32 now s.last_input_time)
    (h3 : 0 < s.current_morse.length) :
    try_decode_morse s now =
      { last_input_time := s.last_input_time
        decoded_text :=
          if get_char_for_morse s.current_morse ≠ '?' ∧
             s.decoded_text.length < MAX_MORSE_LENGTH - 1 then
            s.decoded_text ++ [get_char_for_morse s.current_morse]
          else s.decoded_text
        top_words :=
          if get_char_for_morse s.current_morse ≠ '?' then
            update_top_words_marquee s.top_words
              (get_char_for_morse s.current_morse)
          else s.top_words
        current_morse := []
        auto_add_space :=
          if get_char_for_morse s.current_morse ≠ '?' ∧
             s.decoded_text.length < MAX_MORSE_LENGTH - 1 then true
          else s.auto_add_space
        last_decoded_char := get_char_for_morse s.current_morse
        user_input :=
          if get_char_for_morse s.current_morse ≠ '?' ∧
             s.user_input.length < MAX_MORSE_LENGTH - 1 then
            s.user_input ++ [get_char_for_morse s.current_morse]
          else s.user_input } := by
  unfold try_decode_morse
  rw [if_pos ⟨h1, h2, h3⟩]
  by_cases hq : get_char_for_morse s.current_morse = '?'
  · simp [hq]
  · by_cases hd : s.decoded_text.length < MAX_MORSE_LENGTH - 1 <;>
    by_cases hu : s.user_input.length < MAX_MORSE_LENGTH - 1 <;>
    simp [hq, hd, hu]

/-- A table scan over codes none of which equals the query yields the
unknown marker. -/
lemma lookupMorse_eq_unknown (t : List (Char × List Char)) (m : List Char)
    (h : ∀ p ∈ t, p.2 ≠ m) : lookupMorse t m = '?' := by
  induction t with
  | nil => rfl
  | cons p rest ih =>
    obtain ⟨ch, code⟩ := p
    unfold lookupMorse
    rw [if_neg (h (ch, code) (List.mem_cons_self _ _))]
    exact ih fun q hq => h q (List.mem_cons_of_mem _ hq)

/-- One marquee update never exceeds the display capacity. -/
lemma marquee_step_bound (l : List Char) (c : Char) :
    (update_top_words_marquee l c).length ≤ TOP_WORDS_MAX_LENGTH := by
  unfold update_top_words_marquee
  split
  · next h => simpa using h
  · simp only [List.length_append, List.length_take, List.length_cons,
      List.length_nil, TOP_WORDS_MAX_LENGTH]
    omega

/-- Any marquee fold starting from a within-capacity buffer stays within
capacity. -/
lemma marquee_fold_bound (cs : List Char) (a : List Char)
    (ha : a.length ≤ TOP_WORDS_MAX_LENGTH) :
    (List.foldl update_top_words_marquee a cs).length ≤
      TOP_WORDS_MAX_LENGTH := by
  induction cs generalizing a with
  | nil => simpa using ha
  | cons c cs ih => exact ih _ (marquee_step_bound a c)

/-! ## Claim theorems -/

/-- Claim C1: for every supported character (letters in either case and
digits), `get_morse_for_char` succeeds and `get_char_for_morse` of the
resulting code returns the upper-cased character: decode after encode is the
identity up to case folding. -/
theorem c1_decode_encode_roundtrip :
    ∀ c ∈ supportedChars,
      (get_morse_for_char c).isSome = true ∧
      get_char_for_morse ((get_morse_for_char c).getD []) = toupperC c := by
  decide

/-- Witness for C1 at the lowercase letter q. -/
theorem c1_decode_encode_roundtrip_witness :
    (get_morse_for_char 'q').isSome = true ∧
    get_char_for_morse ((get_morse_for_char 'q').getD []) = toupperC 'q' :=
  c1_decode_encode_roundtrip 'q' (by decide)

/-- Counterexample to claim C2: the Right-key clear handler does not reset
every observable practice field to its initial value — starting from a state
whose marquee history holds S and whose last-decoded slot holds S, after
`practice_clear` both still differ from their `initApp` values. -/
theorem c2_clear_cex :
    (practice_clear
        { initApp with top_words := ['S'], last_decoded_char := 'S' }).top_words ≠
      initApp.top_words ∧
    (practice_clear
        { initApp with top_words := ['S'], last_decoded_char := 'S' }).last_decoded_char ≠
      initApp.last_decoded_char := by
  decide

/-- Claim C2 (amended): the clear operation resets the symbol buffer, the
last-activity timestamp, the internal decoded text, the pending-separator
flag and the user-input display to their initial-state values, but leaves
the decoded history (marquee) and the last-decoded slot unchanged. -/
theorem c2_clear_amended (s : MorseApp) :
    (practice_clear s).user_input = initApp.user_input ∧
    (practice_clear s).decoded_text = initApp.decoded_text ∧
    (practice_clear s).current_morse = initApp.current_morse ∧
    (practice_clear s).auto_add_space = initApp.auto_add_space ∧
    (practice_clear s).last_input_time = initApp.last_input_time ∧
    (practice_clear s).top_words = s.top_words ∧
    (practice_clear s).last_decoded_char = s.last_decoded_char := by
  exact ⟨rfl, rfl, rfl, rfl, rfl, rfl, rfl⟩

/-- Counterexample to claim C3: a timeout-triggered resolution does clear the
symbol buffer (here resolving a single dot to E) but does not clear the
last-activity timestamp, which keeps its pre-resolution value 5 instead of
returning to the unset value 0. -/
theorem c3_poll_clear_cex :
    (try_decode_morse
        { initApp with last_input_time := 5, current_morse := ['.'] }
        7).current_morse = [] ∧
    (try_decode_morse
        { initApp with last_input_time := 5, current_morse := ['.'] }
        7).last_decoded_char = 'E' ∧
    (try_decode_morse
        { initApp with last_input_time := 5, current_morse := ['.'] }
        7).last_input_time = 5 := by
  decide

/-- Claim C3 (amended): after a timeout-triggered resolution the symbol
buffer is cleared unconditionally — whether the decode produced a recognized
character or the unknown marker — while the last-activity timestamp is left
unchanged (subsequent polls are still no-ops because the buffer is empty). -/
theorem c3_poll_clear_amended (s : MorseApp) (now : Nat)
    (h1 : 0 < s.last_input_time)
    (h2 : DECODE_TIMEOUT_MS / 1000 ≤ sub32 now s.last_input_time)
    (h3 : 0 < s.current_morse.length) :
    (try_decode_morse s now).current_morse = [] ∧
    (try_decode_morse s now).last_input_time = s.last_input_time := by
  rw [try_decode_resolve s now h1 h2 h3]
  exact ⟨rfl, rfl⟩

/-- Witness for the amended C3 on a concrete unrecognized buffer. -/
theorem c3_poll_clear_amended_witness :
    (try_decode_morse
        { initApp with
            last_input_time := 4
            current_morse := ['-', '-', '-', '-', '-', '-'] }
        9).current_morse = [] ∧
    (try_decode_morse
        { initApp with
            last_input_time := 4
            current_morse := ['-', '-', '-', '-', '-', '-'] }
        9).last_input_time =
      ({ initApp with
          last_input_time := 4
          current_morse := ['-', '-', '-', '-', '-', '-'] } : MorseApp).last_input_time :=
  c3_poll_clear_amended _ 9 (by decide) (by decide) (by decide)

/-- Counterexample to claim C4: from a state whose input buffer and decode
buffer both hold five dots, submitting a sixth dot performs no resolution at
all (the marquee stays empty and the last-decoded slot is untouched, though
five dots would resolve to the digit five), the display buffer is discarded
wholesale and restarted with the new dot, and the sixth dot is never
appended to the decode buffer — a submitted symbol is lost. -/
theorem c4_overflow_cex :
    (practice_key_ok_left
        { initApp with
            last_input_time := 10
            current_morse := ['.', '.', '.', '.', '.']
            user_input := ['.', '.', '.', '.', '.'] }
        InputKind.Short 11).current_morse = ['.', '.', '.', '.', '.'] ∧
    (practice_key_ok_left
        { initApp with
            last_input_time := 10
            current_morse := ['.', '.', '.', '.', '.']
            user_input := ['.', '.', '.', '.', '.'] }
        InputKind.Short 11).top_words = [] ∧
    (practice_key_ok_left
        { initApp with
            last_input_time := 10
            current_morse := ['.', '.', '.', '.', '.']
            user_input := ['.', '.', '.', '.', '.'] }
        InputKind.Short 11).last_decoded_char = Char.ofNat 0 ∧
    (practice_key_ok_left
        { initApp with
            last_input_time := 10
            current_morse := ['.', '.', '.', '.', '.']
            user_input := ['.', '.', '.', '.', '.'] }
        InputKind.Short 11).user_input = ['.'] := by
  decide

/-- Claim C4 (amended): when the user-input display buffer is at capacity,
submitting one more symbol — a dot via a Short event or a dash via a Long
event — discards that buffer without any resolution (no history or
last-decoded update) and restarts it with the new symbol; the new symbol is
appended to the decode buffer only if that buffer is below its own capacity,
and is otherwise dropped from decoding. -/
theorem c4_overflow_amended (s : MorseApp) (now : Nat) (kind : InputKind)
    (sym : Char)
    (hk : (kind = InputKind.Short ∧ sym = '.') ∨
          (kind = InputKind.Long ∧ sym = '-'))
    (h : MAX_MORSE_LENGTH - 1 ≤ s.user_input.length) :
    (practice_key_ok_left s kind now).user_input = [sym] ∧
    (practice_key_ok_left s kind now).current_morse =
      (if s.current_morse.length < MAX_MORSE_LENGTH - 1 then
        s.current_morse ++ [sym]
      else s.current_morse) ∧
    (practice_key_ok_left s kind now).top_words = s.top_words ∧
    (practice_key_ok_left s kind now).last_decoded_char =
      s.last_decoded_char := by
  have h0 : ([] : List Char).length < MAX_MORSE_LENGTH - 1 := by decide
  have h1 : 1 < MAX_MORSE_LENGTH := by decide
  rcases hk with ⟨hks, hsym⟩ | ⟨hks, hsym⟩ <;> subst hks <;> subst hsym <;>
  (by_cases ha : s.auto_add_space <;>
   by_cases hd : s.decoded_text.length < MAX_MORSE_LENGTH - 1 <;>
   by_cases hm : s.current_morse.length < MAX_MORSE_LENGTH - 1 <;>
   simp [practice_key_ok_left, ha, hd, hm, h, h0, h1])

/-- Witness for the amended C4, exercising both symbol kinds with the decode
buffer also full: a Long event (dash) on a dash-filled state and a Short
event (dot) on a dot-filled state. -/
theorem c4_overflow_amended_witness :
    (practice_key_ok_left
        { initApp with
            last_input_time := 10
            current_morse := ['-', '-', '-', '-', '-']
            user_input := ['-', '-', '-', '-', '-'] }
        InputKind.Long 11).user_input = ['-'] ∧
    (practice_key_ok_left
        { initApp with
            last_input_time := 10
            current_morse := ['-', '-', '-', '-', '-']
            user_input := ['-', '-', '-', '-', '-'] }
        InputKind.Long 11).current_morse =
      (if (['-', '-', '-', '-', '-'] : List Char).length <
          MAX_MORSE_LENGTH - 1 then
        ['-', '-', '-', '-', '-'] ++ ['-']
      else ['-', '-', '-', '-', '-']) ∧
    (practice_key_ok_left
        { initApp with
            last_input_time := 10
            current_morse := ['-', '-', '-', '-', '-']
            user_input := ['-', '-', '-', '-', '-'] }
        InputKind.Long 11).top_words = [] ∧
    (practice_key_ok_left
        { initApp with
            last_input_time := 10
            current_morse := ['-', '-', '-', '-', '-']
            user_input := ['-', '-', '-', '-', '-'] }
        InputKind.Long 11).last_decoded_char = Char.ofNat 0 ∧
    (practice_key_ok_left
        { initApp with
            last_input_time := 10
            current_morse := ['.', '.', '.', '.', '.']
            user_input := ['.', '.', '.', '.', '.'] }
        InputKind.Short 11).user_input = ['.'] :=
  ⟨(c4_overflow_amended _ 11 InputKind.Long '-'
      (Or.inr ⟨rfl, rfl⟩) (by decide)).1,
   (c4_overflow_amended _ 11 InputKind.Long '-'
      (Or.inr ⟨rfl, rfl⟩) (by decide)).2.1,
   (c4_overflow_amended _ 11 InputKind.Long '-'
      (Or.inr ⟨rfl, rfl⟩) (by decide)).2.2.1,
   (c4_overflow_amended _ 11 InputKind.Long '-'
      (Or.inr ⟨rfl, rfl⟩) (by decide)).2.2.2,
   (c4_overflow_amended _ 11 InputKind.Short '.'
      (Or.inl ⟨rfl, rfl⟩) (by decide)).1⟩

/-- Claim C5: polling before the timeout (in the code's units: RTC seconds
against `DECODE_TIMEOUT_MS / 1000`) changes nothing; polling with an empty
buffer changes nothing; and polling a non-empty buffer at or beyond the
timeout (with a set timestamp, as every submission at a nonzero RTC time
guarantees) clears the buffer, records the decode result, and makes every
immediately following poll a no-op. -/
theorem c5_poll_timing (s : MorseApp) (now : Nat) :
    (sub32 now s.last_input_time < DECODE_TIMEOUT_MS / 1000 →
      try_decode_morse s now = s) ∧
    (s.current_morse.length = 0 → try_decode_morse s now = s) ∧
    (0 < s.last_input_time →
     DECODE_TIMEOUT_MS / 1000 ≤ sub32 now s.last_input_time →
     0 < s.current_morse.length →
      (try_decode_morse s now).current_morse = [] ∧
      (try_decode_morse s now).last_decoded_char =
        get_char_for_morse s.current_morse ∧
      ∀ now2, try_decode_morse (try_decode_morse s now) now2 =
        try_decode_morse s now) := by
  refine ⟨?_, ?_, ?_⟩
  · intro hlt
    exact try_decode_skip s now fun hc => absurd hc.2.1 (Nat.not_le.mpr hlt)
  · intro hz
    exact try_decode_skip s now fun hc => by omega
  · intro h1 h2 h3
    have hres := try_decode_resolve s now h1 h2 h3
    refine ⟨?_, ?_, ?_⟩
    · rw [hres]
    · rw [hres]
    · intro now2
      refine try_decode_skip _ now2 fun hc => ?_
      rw [hres] at hc
      simp at hc

/-- Witness for C5: three dots stamped at second 1, an early poll at
second 2, a resolving poll at second 3, and an idle re-poll at second 4. -/
theorem c5_poll_timing_witness :
    try_decode_morse
        { initApp with last_input_time := 1, current_morse := ['.', '.', '.'] }
        2 =
      { initApp with last_input_time := 1, current_morse := ['.', '.', '.'] } ∧
    (try_decode_morse
        { initApp with last_input_time := 1, current_morse := ['.', '.', '.'] }
        3).current_morse = [] ∧
    try_decode_morse
        (try_decode_morse
          { initApp with
              last_input_time := 1
              current_morse := ['.', '.', '.'] }
          3)
        4 =
      try_decode_morse
        { initApp with last_input_time := 1, current_morse := ['.', '.', '.'] }
        3 :=
  ⟨(c5_poll_timing _ 2).1 (by decide),
   ((c5_poll_timing _ 3).2.2 (by decide) (by decide) (by decide)).1,
   ((c5_poll_timing _ 3).2.2 (by decide) (by decide) (by decide)).2.2 4⟩

/-- Counterexample to claim C6: replaying the claimed millisecond scenario
against the code, whose clock is the whole-second RTC timestamp (so the
instants 0, 50 and 100 ms all stamp second 0 and both polls happen at
second 2), the poll at 2101 ms resolves nothing: the buffer still holds the
three dots, the history is still empty, and no character was decoded. -/
theorem c6_scenario_cex :
    (try_decode_morse
        (try_decode_morse
          (practice_key_ok_left
            (practice_key_ok_left
              (practice_key_ok_left initApp InputKind.Short (msToSec 0))
              InputKind.Short (msToSec 50))
            InputKind.Short (msToSec 100))
          (msToSec 2099))
        (msToSec 2101)).current_morse = ['.', '.', '.'] ∧
    (try_decode_morse
        (try_decode_morse
          (practice_key_ok_left
            (practice_key_ok_left
              (practice_key_ok_left initApp InputKind.Short (msToSec 0))
              InputKind.Short (msToSec 50))
            InputKind.Short (msToSec 100))
          (msToSec 2099))
        (msToSec 2101)).top_words = [] ∧
    (try_decode_morse
        (try_decode_morse
          (practice_key_ok_left
            (practice_key_ok_left
              (practice_key_ok_left initApp InputKind.Short (msToSec 0))
              InputKind.Short (msToSec 50))
            InputKind.Short (msToSec 100))
          (msToSec 2099))
        (msToSec 2101)).last_decoded_char = Char.ofNat 0 := by
  decide

/-- Claim C6 (amended): with the code's whole-second clock, the same scenario
shifted to nonzero seconds behaves as intended: submitting three dots at
1000 ms, 1050 ms and 1100 ms (all stamping RTC second 1), a poll at 2099 ms
(second 2, one second of pause) resolves nothing and leaves the state
unchanged, and a poll at 3001 ms (second 3, two seconds of pause) resolves
the buffer to S, appends S to the tail of the decoded history, and leaves
the symbol buffer empty. -/
theorem c6_scenario_amended :
    (try_decode_morse
        (practice_key_ok_left
          (practice_key_ok_left
            (practice_key_ok_left initApp InputKind.Short (msToSec 1000))
            InputKind.Short (msToSec 1050))
          InputKind.Short (msToSec 1100))
        (msToSec 2099)) =
      (practice_key_ok_left
        (practice_key_ok_left
          (practice_key_ok_left initApp InputKind.Short (msToSec 1000))
          InputKind.Short (msToSec 1050))
        InputKind.Short (msToSec 1100)) ∧
    (try_decode_morse
        (try_decode_morse
          (practice_key_ok_left
            (practice_key_ok_left
              (practice_key_ok_left initApp InputKind.Short (msToSec 1000))
              InputKind.Short (msToSec 1050))
            InputKind.Short (msToSec 1100))
          (msToSec 2099))
        (msToSec 3001)).top_words = ['S'] ∧
    (try_decode_morse
        (try_decode_morse
          (practice_key_ok_left
            (practice_key_ok_left
              (practice_key_ok_left initApp InputKind.Short (msToSec 1000))
              InputKind.Short (msToSec 1050))
            InputKind.Short (msToSec 1100))
          (msToSec 2099))
        (msToSec 3001)).last_decoded_char = 'S' ∧
    (try_decode_morse
        (try_decode_morse
          (practice_key_ok_left
            (practice_key_ok_left
              (practice_key_ok_left initApp InputKind.Short (msToSec 1000))
              InputKind.Short (msToSec 1050))
            InputKind.Short (msToSec 1100))
          (msToSec 2099))
        (msToSec 3001)).current_morse = [] := by
  decide

/-- Claim C7: the decode lookup is total — every symbol string absent from
the table yields the unknown marker — and on a timeout resolution the result
is always recorded in the last-decoded slot while the decoded history is
updated only for recognized characters, never for the unknown marker. -/
theorem c7_decode_total (m : List Char) (s : MorseApp) (now : Nat) :
    ((∀ p ∈ MORSE_TABLE, p.2 ≠ m) → get_char_for_morse m = '?') ∧
    (0 < s.last_input_time →
     DECODE_TIMEOUT_MS / 1000 ≤ sub32 now s.last_input_time →
     0 < s.current_morse.length →
      (try_decode_morse s now).last_decoded_char =
        get_char_for_morse s.current_morse ∧
      (get_char_for_morse s.current_morse = '?' →
        (try_decode_morse s now).top_words = s.top_words) ∧
      (get_char_for_morse s.current_morse ≠ '?' →
        (try_decode_morse s now).top_words =
          update_top_words_marquee s.top_words
            (get_char_for_morse s.current_morse))) := by
  refine ⟨fun h => lookupMorse_eq_unknown MORSE_TABLE m h, ?_⟩
  intro h1 h2 h3
  have hres := try_decode_resolve s now h1 h2 h3
  refine ⟨by rw [hres], fun hq => ?_, fun hq => ?_⟩
  · rw [hres]
    simp [hq]
  · rw [hres]
    simp [hq]

/-- Witness for C7: six dots match no table code and decode to the unknown
marker; resolving the unrecognized buffer dot-dash-dot-dash records the
marker in the last-decoded slot and leaves the history untouched. -/
theorem c7_decode_total_witness :
    get_char_for_morse ['.', '.', '.', '.', '.', '.'] = '?' ∧
    (try_decode_morse
        { initApp with
            last_input_time := 1
            current_morse := ['.', '-', '.', '-'] } 3).last_decoded_char =
      get_char_for_morse
        ({ initApp with
            last_input_time := 1
            current_morse := ['.', '-', '.', '-'] } : MorseApp).current_morse ∧
    (try_decode_morse
        { initApp with
            last_input_time := 1
            current_morse := ['.', '-', '.', '-'] } 3).top_words =
      ({ initApp with
          last_input_time := 1
          current_morse := ['.', '-', '.', '-'] } : MorseApp).top_words :=
  ⟨(c7_decode_total ['.', '.', '.', '.', '.', '.'] initApp 0).1 (by decide),
   ((c7_decode_total []
      { initApp with
          last_input_time := 1
          current_morse := ['.', '-', '.', '-'] } 3).2
      (by decide) (by decide) (by decide)).1,
   ((c7_decode_total []
      { initApp with
          last_input_time := 1
          current_morse := ['.', '-', '.', '-'] } 3).2
      (by decide) (by decide) (by decide)).2.1 (by decide)⟩

/-- Claim C8: for a dot or dash command in the sound worker, a successful
speaker acquisition always emits the visual pulse and starts the tone
exactly when the volume is positive, while a failed acquisition skips both
the tone and the visual pulse. -/
theorem c8_pulse_gating (acquired : Bool) (volume : ℚ) :
    (dot_pulse acquired volume).visual_pulse = acquired ∧
    (dot_pulse acquired volume).tone_started =
      (acquired && decide (0 < volume)) ∧
    (dash_pulse acquired volume).visual_pulse = acquired ∧
    (dash_pulse acquired volume).tone_started =
      (acquired && decide (0 < volume)) := by
  cases acquired <;> simp [dot_pulse, dash_pulse]

/-- Claim C9: the marquee history is a bounded FIFO window — any sequence of
appends starting from the empty display stays within the 16-character
capacity, and appending to a full window drops exactly the oldest character
and places the new one at the end. -/
theorem c9_marquee_fifo (cs : List Char) (l : List Char) (c : Char) :
    (List.foldl update_top_words_marquee [] cs).length ≤
      TOP_WORDS_MAX_LENGTH ∧
    (l.length = TOP_WORDS_MAX_LENGTH →
      update_top_words_marquee l c = l.tail ++ [c]) := by
  refine ⟨marquee_fold_bound cs [] (by decide), fun hl => ?_⟩
  unfold update_top_words_marquee
  rw [if_neg (by omega)]
  have ht : l.tail.length ≤ TOP_WORDS_MAX_LENGTH - 1 := by
    rw [List.length_tail, hl]
  rw [List.take_of_length_le ht]

/-- Witness for C9 on a full 16-character window. -/
theorem c9_marquee_fifo_witness :
    (List.foldl update_top_words_marquee [] ['A']).length ≤
      TOP_WORDS_MAX_LENGTH ∧
    update_top_words_marquee
        ['A', 'B', 'C', 'D', 'E', 'F', 'G', 'H',
         'I', 'J', 'K', 'L', 'M', 'N', 'O', 'P'] 'Q' =
      (['A', 'B', 'C', 'D', 'E', 'F', 'G', 'H',
        'I', 'J', 'K', 'L', 'M', 'N', 'O', 'P'] : List Char).tail ++ ['Q'] :=
  ⟨(c9_marquee_fifo ['A']
      ['A', 'B', 'C', 'D', 'E', 'F', 'G', 'H',
       'I', 'J', 'K', 'L', 'M', 'N', 'O', 'P'] 'Q').1,
   (c9_marquee_fifo ['A']
      ['A', 'B', 'C', 'D', 'E', 'F', 'G', 'H',
       'I', 'J', 'K', 'L', 'M', 'N', 'O', 'P'] 'Q').2 (by decide)⟩

/-- Claim C10 (implicit): on a resolution of a recognized character, the
pending-separator flag is set exactly in the branch where the internal
decoded text still has room; once the decoded text is full, the character
still updates the marquee history and the last-decoded slot but is not
appended to the decoded text and leaves the separator flag exactly as it
was. -/
theorem c10_decoded_text_full (s : MorseApp) (now : Nat)
    (h1 : 0 < s.last_input_time)
    (h2 : DECODE_TIMEOUT_MS / 1000 ≤ sub32 now s.last_input_time)
    (h3 : 0 < s.current_morse.length)
    (hv : get_char_for_morse s.current_morse ≠ '?') :
    (s.decoded_text.length < MAX_MORSE_LENGTH - 1 →
      (try_decode_morse s now).decoded_text =
        s.decoded_text ++ [get_char_for_morse s.current_morse] ∧
      (try_decode_morse s now).auto_add_space = true) ∧
    (MAX_MORSE_LENGTH - 1 ≤ s.decoded_text.length →
      (try_decode_morse s now).decoded_text = s.decoded_text ∧
      (try_decode_morse s now).auto_add_space = s.auto_add_space ∧
      (try_decode_morse s now).top_words =
        update_top_words_marquee s.top_words
          (get_char_for_morse s.current_morse) ∧
      (try_decode_morse s now).last_decoded_char =
        get_char_for_morse s.current_morse) := by
  have hres := try_decode_resolve s now h1 h2 h3
  constructor
  · intro hroom
    rw [hres]
    simp [hv, hroom]
  · intro hfull
    rw [hres]
    simp [hv, Nat.not_lt.mpr hfull]

/-- Witness for C10 on a full five-character decoded text: a dot resolves to
E, which reaches the marquee and the last-decoded slot but neither extends
the decoded text nor raises the separator flag. -/
theorem c10_decoded_text_full_witness :
    (try_decode_morse
        { initApp with
            last_input_time := 1
            decoded_text := ['A', 'B', 'C', 'D', 'E']
            current_morse := ['.'] } 3).decoded_text =
      ['A', 'B', 'C', 'D', 'E'] ∧
    (try_decode_morse
        { initApp with
            last_input_time := 1
            decoded_text := ['A', 'B', 'C', 'D', 'E']
            current_morse := ['.'] } 3).auto_add_space = false ∧
    (try_decode_morse
        { initApp with
            last_input_time := 1
            decoded_text := ['A', 'B', 'C', 'D', 'E']
            current_morse := ['.'] } 3).top_words =
      update_top_words_marquee [] 'E' ∧
    (try_decode_morse
        { initApp with
            last_input_time := 1
            decoded_text := ['A', 'B', 'C', 'D', 'E']
            current_morse := ['.'] } 3).last_decoded_char = 'E' :=
  (c10_decoded_text_full
    { initApp with
        last_input_time := 1
        decoded_text := ['A', 'B', 'C', 'D', 'E']
        current_morse := ['.'] } 3
    (by decide) (by decide) (by decide) (by decide)).2 (by decide)
